import Mathlib

/-!
Verification development for the `retrace` file-tracking tool.

The Python sources under `src/` are shallowly embedded below:

* `src/persistent/tracked_file.py` — the `TrackedFile` dataclass,
  `calculate_file_hash`, `restore_file`, `try_create_tracked_file`;
* `src/persistent/tracking.py` — the `TrackingDAO` dataclass with
  `is_valid`, `backup`, `restore`, `track`, `save`, `load`,
  `matches_backup`, plus `get_tracking_directory` and
  `initialise_tracking`;
* `src/retrace/exceptions.py` — `TrackingDAOErrorCode` (with exactly the
  two members the source declares) and `TrackingDAOException`.

The filesystem is modelled as a flat map from paths (component lists) to
nodes; Python exceptions become an explicit error type threaded through
`Except`, and side effects on the filesystem are explicit state passing.
Library primitives (hashlib, time.ctime, json.dump/json.load, shutil.copy2,
os.mkdir, open) are modelled by small executable functions documented at
their definitions.
-/

namespace Retrace

/-- Paths are modelled as lists of components; `pathlib.Path.joinpath`
appends a component, `Path.name` is the final component. All paths in play
are absolute, so `Path.absolute()` is the identity. -/
abbrev FilePath' := List String

/-- Models `str(path)` / `Path.as_posix()`: the components joined by `/`. -/
def FilePath'.as_posix (p : FilePath') : String := String.intercalate "/" p

/-- Splits a character list at `/` separators (the component split that
`pathlib.Path` performs on a posix string). -/
def splitOnSlash : List Char → List String
  | [] => [""]
  | c :: rest =>
    if c = '/' then "" :: splitOnSlash rest
    else
      match splitOnSlash rest with
      | [] => [String.mk [c]]
      | s :: ss => String.mk (c :: s.data) :: ss

/-- Models `pathlib.Path(s)` applied to an absolute posix string: split on `/`. -/
def FilePath'.ofString (s : String) : FilePath' := splitOnSlash s.data

/-- Models `Path.name`: the final path component. -/
def FilePath'.name (p : FilePath') : String := p.getLastD ""

/-- Models `Path.parent`: all but the final component. -/
def FilePath'.parent (p : FilePath') : FilePath' := p.dropLast

/-- Python dict assignment `d[k] = v`: update in place if the key is
present (keeping its position), otherwise append the pair at the end. -/
def dictSet {κ α : Type} [BEq κ] : List (κ × α) → κ → α → List (κ × α)
  | [], k, v => [(k, v)]
  | (k', v') :: rest, k, v =>
    if k' == k then (k, v) :: rest else (k', v') :: dictSet rest k v

theorem lookup_dictSet_self {κ α : Type} [BEq κ] [LawfulBEq κ]
    (d : List (κ × α)) (k : κ) (v : α) :
    List.lookup k (dictSet d k v) = some v := by
  induction d with
  | nil => simp [dictSet, List.lookup]
  | cons hd tl ih =>
    obtain ⟨k', v'⟩ := hd
    by_cases h : k' = k
    · simp [dictSet, h, List.lookup]
    · have h1 : (k' == k) = false := by simp [h]
      have h2 : (k == k') = false := by simp [Ne.symm h]
      simp [dictSet, h1, List.lookup, h2, ih]

theorem lookup_dictSet_ne {κ α : Type} [BEq κ] [LawfulBEq κ]
    (d : List (κ × α)) (k k' : κ) (v : α) (h : k' ≠ k) :
    List.lookup k' (dictSet d k v) = List.lookup k' d := by
  induction d with
  | nil =>
    have h2 : (k' == k) = false := by simp [h]
    simp [dictSet, List.lookup, h2]
  | cons hd tl ih =>
    obtain ⟨k0, v0⟩ := hd
    by_cases h0 : k0 = k
    · subst h0
      have h2 : (k' == k0) = false := by simp [h]
      simp [dictSet, List.lookup, h2]
    · have h1 : (k0 == k) = false := by simp [h0]
      simp only [dictSet, h1, Bool.false_eq_true, if_false]
      cases hkk : k' == k0 <;> simp [List.lookup, hkk, ih]

/-- A filesystem node: a regular file (with content bytes, a modification
time, and a permission bit covering read/write access) or a directory. -/
inductive FSNode
  | file (content : List Nat) (mtime : Nat) (readable : Bool)
  | dir
deriving DecidableEq

/-- The filesystem: a flat map from absolute paths to nodes. -/
structure FS where
  entries : List (FilePath' × FSNode)
deriving DecidableEq

def FS.find (fs : FS) (p : FilePath') : Option FSNode := List.lookup p fs.entries

/-- Models `Path.exists()` / `os.path.exists`. -/
def FS.pathExists (fs : FS) (p : FilePath') : Bool := (fs.find p).isSome

/-- Models `Path.is_dir()`. -/
def FS.isDir (fs : FS) (p : FilePath') : Bool :=
  match fs.find p with
  | some .dir => true
  | _ => false

/-- Models `Path.is_file()`. -/
def FS.isFile (fs : FS) (p : FilePath') : Bool :=
  match fs.find p with
  | some (.file ..) => true
  | _ => false

def FS.setNode (fs : FS) (p : FilePath') (n : FSNode) : FS :=
  ⟨dictSet fs.entries p n⟩

/-- Models `path.stat().st_size`; only consulted on existing regular files. -/
def FS.statSize (fs : FS) (p : FilePath') : Nat :=
  match fs.find p with
  | some (.file c _ _) => c.length
  | _ => 0

/-- Models `path.stat().st_mtime`; only consulted on existing regular files. -/
def FS.statMtime (fs : FS) (p : FilePath') : Nat :=
  match fs.find p with
  | some (.file _ m _) => m
  | _ => 0

theorem FS.find_setNode_self (fs : FS) (p : FilePath') (n : FSNode) :
    (fs.setNode p n).find p = some n :=
  lookup_dictSet_self fs.entries p n

theorem FS.find_setNode_ne (fs : FS) (p q : FilePath') (n : FSNode) (h : q ≠ p) :
    (fs.setNode p n).find q = fs.find q :=
  lookup_dictSet_ne fs.entries p q n h

/-- The Python exceptions that can escape the embedded operations.
`trackingDAOException` carries the message and error code built by
`src/retrace/exceptions.py`; the remaining constructors model the built-in
exceptions raised by the standard library (and by the lookup of a missing
enum member, which raises `AttributeError`). -/
inductive TrackingDAOErrorCode
  | INVALID_TRACKING_DIRECTORY
  | INVALID_TRACKING_FILE
deriving DecidableEq

inductive PyErr
  | trackingDAOException (message : String) (error_code : TrackingDAOErrorCode)
  | attributeError
  | fileNotFoundError
  | fileExistsError
  | isADirectoryError
  | permissionError
  | sameFileError
deriving DecidableEq

/-- The write half of `shutil.copy2` once the destination has been resolved
to a concrete target path. -/
def copy2Write (fs : FS) (target src : FilePath') (content : List Nat)
    (mtime : Nat) (readable : Bool) : Except PyErr FS :=
  if target = src then .error .sameFileError
  else if fs.isDir target then .error .isADirectoryError
  else if !readable then .error .permissionError
  else .ok (fs.setNode target (.file content mtime readable))

/-- Models `shutil.copy2(src, dst)`: copies content and metadata
(modification time, permission bits). If `dst` is an existing directory the
copy lands at `dst/src.name`; copying a directory, copying a file onto
itself, or copying an unreadable file raises. -/
def shutil_copy2 (fs : FS) (src dst : FilePath') : Except PyErr FS :=
  match fs.find src with
  | none => .error .fileNotFoundError
  | some .dir => .error .isADirectoryError
  | some (.file content mtime readable) =>
    copy2Write fs
      (if fs.isDir dst then dst ++ [FilePath'.name src] else dst)
      src content mtime readable

/-- Models `os.mkdir(p)`: raises `FileExistsError` when `p` exists and
`FileNotFoundError` when its parent is not an existing directory. -/
def os_mkdir (fs : FS) (p : FilePath') : Except PyErr FS :=
  if fs.pathExists p then .error .fileExistsError
  else if !(fs.isDir (FilePath'.parent p)) then .error .fileNotFoundError
  else .ok (fs.setNode p .dir)

/-- Models `open(p, "w")`: truncates or creates the file; raises
`IsADirectoryError` on a directory, `PermissionError` without access, and
`FileNotFoundError` when the parent directory is missing. -/
def openWrite (fs : FS) (p : FilePath') : Except PyErr FS :=
  match fs.find p with
  | some .dir => .error .isADirectoryError
  | some (.file _ m r) =>
    if r then .ok (fs.setNode p (.file [] m r)) else .error .permissionError
  | none =>
    if fs.isDir (FilePath'.parent p) then .ok (fs.setNode p (.file [] 0 true))
    else .error .fileNotFoundError

/-- Constant `__FOUR_KILOBYTES` from `src/persistent/tracked_file.py`. -/
def FOUR_KILOBYTES : Nat := 4096

/-- Models `hashlib.sha256(...).hexdigest()` applied to an absorbed byte
sequence: an injective fingerprint standing in for the SHA-256 hex digest. -/
def sha256_hexdigest (bs : List Nat) : String := "sha256:" ++ toString bs

/-- Models `time.ctime(t)`: an injective rendering of the timestamp. -/
def time_ctime (t : Nat) : String := "ctime:" ++ toString t

/-- The `while chunk := file.read(__FOUR_KILOBYTES): hasher.update(chunk)`
loop of `calculate_file_hash`: absorbs the remaining bytes into the hasher
state 4096 bytes at a time. Structured with a fuel argument (one unit per
loop iteration) so that it reduces definitionally; each chunk is nonempty,
so `remaining.length` units of fuel always suffice, and the fuel-exhausted
branch absorbs the rest in one final update, preserving the absorbed
sequence in every case. -/
def hashUpdateGo : Nat → List Nat → List Nat → List Nat
  | _, absorbed, [] => absorbed
  | 0, absorbed, rest => absorbed ++ rest
  | fuel + 1, absorbed, b :: rest =>
    hashUpdateGo fuel (absorbed ++ ((b :: rest).take FOUR_KILOBYTES))
      ((b :: rest).drop FOUR_KILOBYTES)

def hashUpdateLoop (absorbed remaining : List Nat) : List Nat :=
  hashUpdateGo remaining.length absorbed remaining

/-- Embeds `calculate_file_hash` (`src/persistent/tracked_file.py:37-50`):
streams the file through the hasher in 4 KiB chunks and returns the hex
digest. Any failure to open or read (missing path, directory, no read
permission) is caught by the `except` clause, which prints a message and
falls through — the function then returns `None`. -/
def calculate_file_hash (fs : FS) (filepath : FilePath') : Option String :=
  match fs.find filepath with
  | some (.file content _ true) =>
    some (sha256_hexdigest (hashUpdateLoop [] content))
  | _ => none

/-- The `TrackedFile` dataclass (`src/persistent/tracked_file.py:16-33`).
`hash` is an `Option` because Python stores whatever
`calculate_file_hash` returns, which is `None` on a read failure. -/
structure TrackedFile where
  filename : String
  path : String
  hash : Option String
  size : Nat
  last_modified : String
  backup_path : String
deriving DecidableEq

/-- Embeds `restore_file` (`src/persistent/tracked_file.py:69-74`): returns
`false` when no node exists at `backup_path`, otherwise copies the backup
over the source with `shutil.copy2` (whose exceptions propagate). -/
def restore_file (fs : FS) (f : TrackedFile) : Except PyErr (FS × Bool) :=
  if !(fs.pathExists (FilePath'.ofString f.backup_path)) then .ok (fs, false)
  else
    (shutil_copy2 fs (FilePath'.ofString f.backup_path)
      (FilePath'.ofString f.path)).map (fun fs1 => (fs1, true))

/-- Embeds `try_create_tracked_file` (`src/persistent/tracked_file.py:77-92`):
returns `None` unless `filepath` exists and is a regular file; otherwise
builds the record. Note that the source sets
`backup_path = backup_directory.absolute().as_posix()` — the backup
directory itself, without joining the filename. -/
def try_create_tracked_file (fs : FS) (filepath : FilePath')
    (backup_directory : FilePath') : Option TrackedFile :=
  if !(fs.pathExists filepath) || !(fs.isFile filepath) then none
  else
    some
      { path := FilePath'.as_posix filepath
        hash := calculate_file_hash fs filepath
        size := fs.statSize filepath
        last_modified := time_ctime (fs.statMtime filepath)
        backup_path := FilePath'.as_posix backup_directory
        filename := FilePath'.name filepath }

theorem hashUpdateGo_eq (fuel : Nat) :
    ∀ (absorbed l : List Nat), hashUpdateGo fuel absorbed l = absorbed ++ l := by
  induction fuel with
  | zero =>
    intro absorbed l
    cases l <;> simp [hashUpdateGo]
  | succ n ih =>
    intro absorbed l
    cases l with
    | nil => simp [hashUpdateGo]
    | cons b rest =>
      rw [hashUpdateGo, ih, List.append_assoc, List.take_append_drop]

theorem hashUpdateLoop_eq (absorbed l : List Nat) :
    hashUpdateLoop absorbed l = absorbed ++ l :=
  hashUpdateGo_eq l.length absorbed l

/-!
Serialization of the registry document.

`TrackingDAO.save` runs `json.dump({key: asdict(value) ...})` and
`TrackingDAO.load` runs `TrackedFile(**value)` over `json.load`'s result.
The concrete JSON text is abstracted as a self-delimiting byte encoding of
the document (a list of filename/record pairs); `encodeRegistryDoc` plays
the role of `json.dump` composed with `asdict`, and `decodeRegistryDoc`
the role of `json.load` composed with `TrackedFile(**·)`. The two are
proved mutually inverse, the analogue of JSON round-tripping on the
documents this program writes.
-/

def encStr (s : String) : List Nat :=
  s.data.length :: s.data.map Char.toNat

def decStr : List Nat → Option (String × List Nat)
  | [] => none
  | n :: rest =>
    if n ≤ rest.length then
      some (String.mk ((rest.take n).map Char.ofNat), rest.drop n)
    else none

def encNat (n : Nat) : List Nat := [n]

def decNat : List Nat → Option (Nat × List Nat)
  | [] => none
  | n :: rest => some (n, rest)

def encOptStr : Option String → List Nat
  | none => [0]
  | some s => 1 :: encStr s

def decOptStr : List Nat → Option (Option String × List Nat)
  | 0 :: rest => some (none, rest)
  | 1 :: rest => (decStr rest).map (fun p => (some p.1, p.2))
  | _ => none

/-- Serialized form of `asdict(tracked_file)`: the six fields in
declaration order. -/
def encTF (t : TrackedFile) : List Nat :=
  encStr t.filename ++ encStr t.path ++ encOptStr t.hash ++ encNat t.size ++
    encStr t.last_modified ++ encStr t.backup_path

/-- Models `TrackedFile(**value)` on a decoded record. -/
def decTF (bs : List Nat) : Option (TrackedFile × List Nat) := do
  let (fn, b1) ← decStr bs
  let (p, b2) ← decStr b1
  let (h, b3) ← decOptStr b2
  let (sz, b4) ← decNat b3
  let (lm, b5) ← decStr b4
  let (bp, b6) ← decStr b5
  some (⟨fn, p, h, sz, lm, bp⟩, b6)

def encodeRegistryDoc (doc : List (String × TrackedFile)) : List Nat :=
  doc.length :: (doc.map (fun kv => encStr kv.1 ++ encTF kv.2)).flatten

def decEntries : Nat → List Nat → Option (List (String × TrackedFile))
  | 0, bs => if bs = [] then some [] else none
  | n + 1, bs => do
    let (k, b1) ← decStr bs
    let (t, b2) ← decTF b1
    let rest ← decEntries n b2
    some ((k, t) :: rest)

def decodeRegistryDoc : List Nat → Option (List (String × TrackedFile))
  | [] => none
  | n :: rest => decEntries n rest

theorem decStr_enc (s : String) (r : List Nat) :
    decStr (encStr s ++ r) = some (s, r) := by
  have hlen : s.data.length ≤ (s.data.map Char.toNat ++ r).length := by
    simp
  simp only [encStr, List.cons_append, decStr, hlen, if_pos,
    Option.some.injEq, Prod.mk.injEq]
  constructor
  · congr 1
    rw [show s.data.length = (s.data.map Char.toNat).length by simp,
      List.take_left, List.map_map]
    have : (Char.ofNat ∘ Char.toNat) = id := by
      funext c
      simp [Char.ofNat_toNat]
    simp [this]
  · rw [show s.data.length = (s.data.map Char.toNat).length by simp,
      List.drop_left]

theorem decOptStr_enc (h : Option String) (r : List Nat) :
    decOptStr (encOptStr h ++ r) = some (h, r) := by
  cases h with
  | none => simp [encOptStr, decOptStr]
  | some s => simp [encOptStr, decOptStr, decStr_enc]

theorem decTF_enc (t : TrackedFile) (r : List Nat) :
    decTF (encTF t ++ r) = some (t, r) := by
  simp [decTF, encTF, List.append_assoc, decStr_enc, decOptStr_enc, encNat,
    decNat]

theorem decEntries_enc (doc : List (String × TrackedFile)) :
    decEntries doc.length
      (doc.map (fun kv => encStr kv.1 ++ encTF kv.2)).flatten = some doc := by
  induction doc with
  | nil => simp [decEntries]
  | cons hd tl ih =>
    obtain ⟨k, t⟩ := hd
    simp only [List.length_cons, List.map_cons, List.flatten_cons, decEntries,
      List.append_assoc, decStr_enc, decTF_enc, Option.bind_eq_bind,
      Option.some_bind, ih]

theorem decodeRegistryDoc_enc (doc : List (String × TrackedFile)) :
    decodeRegistryDoc (encodeRegistryDoc doc) = some doc := by
  simp [encodeRegistryDoc, decodeRegistryDoc, decEntries_enc]

/-- A value stored in the `TrackingDAO.files` dict. Besides `TrackedFile`
instances the dict can hold the imported `persistent.tracked_file` module
object, because `TrackingDAO.track` (`src/persistent/tracking.py:166,169`)
tests and inserts the name `tracked_file` — the module — instead of the
local variable `file` holding the newly created record. Attribute access
such as `.path` or `.hash` on the module raises `AttributeError`. -/
inductive RegObj
  | tracked (t : TrackedFile)
  | moduleRef
deriving DecidableEq

/-- The `TrackingDAO` dataclass (`src/persistent/tracking.py:17-24`). -/
structure TrackingDAO where
  files : List (String × RegObj)
  directory : FilePath'
  tracking_directory : FilePath'
  tracking_file : FilePath'
deriving DecidableEq

/-- Constants from `src/persistent/tracking.py:13-14`. -/
def METADATA_PATH_EXTENSION : String := ".tracking"

def TRACKING_FILENAME : String := "tracking_files.json"

/-- Embeds `TrackingDAO.is_valid` (`src/persistent/tracking.py:26-34`). -/
def TrackingDAO.is_valid (dao : TrackingDAO) (fs : FS) : Bool :=
  fs.pathExists dao.directory && fs.isDir dao.directory &&
    fs.pathExists dao.tracking_file && fs.isFile dao.tracking_file

/-- The loop body of `TrackingDAO.backup` (`src/persistent/tracking.py:59-82`).
Threads the filesystem, the (in-place mutated) `files` dict, and the
accumulating result; an exception aborts the loop but the side effects
performed so far persist. The untracked-file branch raises
`TrackingDAOException` with `INVALID_TRACKING_DIRECTORY` (the same code the
invalid-registry branch uses, see `src/persistent/tracking.py:65`). -/
def backupLoop (fs : FS) (files : List (String × RegObj))
    (acc : List TrackedFile) :
    List String → FS × List (String × RegObj) × Except PyErr (List TrackedFile)
  | [] => (fs, files, .ok acc.reverse)
  | filename :: rest =>
    match List.lookup filename files with
    | none =>
      (fs, files,
        .error (.trackingDAOException
          ("Attempted to backup the untracked file: " ++ filename ++ ".")
          .INVALID_TRACKING_DIRECTORY))
    | some .moduleRef => (fs, files, .error .attributeError)
    | some (.tracked f) =>
      let location := FilePath'.ofString f.path
      let backup_location := FilePath'.ofString f.backup_path
      if !(fs.pathExists location) || fs.isDir location ||
          (!(fs.pathExists backup_location) && fs.isDir backup_location) then
        (fs, files,
          .error (.trackingDAOException
            ("Attempted to backup the invalid file: " ++ filename ++ ".")
            .INVALID_TRACKING_FILE))
      else
        match shutil_copy2 fs location backup_location with
        | .error e => (fs, files, .error e)
        | .ok fs1 =>
          let f1 :=
            { f with
                hash := calculate_file_hash fs1 location
                last_modified := time_ctime (fs1.statMtime location) }
          backupLoop fs1 (dictSet files filename (.tracked f1)) (f1 :: acc) rest

/-- Embeds `TrackingDAO.backup` (`src/persistent/tracking.py:36-84`).
Returns the final filesystem, the registry with its in-place mutations, and
either the list of backed-up files or the exception that escaped. Note the
method never calls `save`. -/
def TrackingDAO.backup (dao : TrackingDAO) (fs : FS) (filenames : List String) :
    FS × TrackingDAO × Except PyErr (List TrackedFile) :=
  if !(dao.is_valid fs) then
    (fs, dao,
      .error (.trackingDAOException
        "Attempted to backup files from an untracked (invalid) directory."
        .INVALID_TRACKING_DIRECTORY))
  else
    let r := backupLoop fs dao.files [] filenames
    (r.1, { dao with files := r.2.1 }, r.2.2)

/-- The loop body of `TrackingDAO.restore` (`src/persistent/tracking.py:115-128`).
The untracked-file branch evaluates
`exceptions.TrackingDAOErrorCode.UNTRACKED_FILE`, but the enum in
`src/retrace/exceptions.py` has no such member, so the lookup itself raises
`AttributeError` before any `TrackingDAOException` is constructed. -/
def restoreLoop (fs : FS) (files : List (String × RegObj))
    (acc : List TrackedFile) :
    List String → FS × Except PyErr (List TrackedFile)
  | [] => (fs, .ok acc.reverse)
  | filename :: rest =>
    match List.lookup filename files with
    | none => (fs, .error .attributeError)
    | some .moduleRef => (fs, .error .attributeError)
    | some (.tracked f) =>
      match restore_file fs f with
      | .error e => (fs, .error e)
      | .ok (fs1, true) => restoreLoop fs1 files (f :: acc) rest
      | .ok (fs1, false) => restoreLoop fs1 files acc rest

/-- Embeds `TrackingDAO.restore` (`src/persistent/tracking.py:86-130`). -/
def TrackingDAO.restore (dao : TrackingDAO) (fs : FS)
    (filenames : List String) : FS × Except PyErr (List TrackedFile) :=
  if !(dao.is_valid fs) then
    (fs,
      .error (.trackingDAOException
        "Attempted to restore file(s) from an invalid tracking directory."
        .INVALID_TRACKING_DIRECTORY))
  else restoreLoop fs dao.files [] filenames

/-- Embeds `TrackingDAO.track` (`src/persistent/tracking.py:132-170`).
When the filename is already a key of `files` the existing entry is
returned unchanged. Otherwise the source computes
`file = try_create_tracked_file(...)` but then tests `tracked_file is None`
— the imported module, never `None`, so no exception — and inserts and
returns `tracked_file`, the module object, instead of `file`. -/
def TrackingDAO.track (dao : TrackingDAO) (fs : FS) (filename : String) :
    TrackingDAO × Except PyErr RegObj :=
  match List.lookup filename dao.files with
  | some v => (dao, .ok v)
  | none =>
    let filepath := dao.directory ++ [filename]
    if !(fs.pathExists filepath) || fs.isDir filepath then
      (dao,
        .error (.trackingDAOException
          ("The file " ++ filename ++
            " does not exist as a valid file for the location: " ++
            FilePath'.as_posix filepath ++ ".")
          .INVALID_TRACKING_FILE))
    else
      let file := try_create_tracked_file fs filepath dao.tracking_directory
      ({ dao with files := dictSet dao.files filename .moduleRef },
        .ok .moduleRef)

/-- The `{key: asdict(value) for ...}` comprehension inside
`TrackingDAO.save`: `asdict` on a `TrackedFile` produces its field record;
`asdict` on the module object raises `TypeError`, modelled as `none`. -/
def asdictAll : List (String × RegObj) → Option (List (String × TrackedFile))
  | [] => some []
  | (k, .tracked t) :: rest => (asdictAll rest).map (fun r => (k, t) :: r)
  | (_, .moduleRef) :: _ => none

/-- Embeds `TrackingDAO.save` (`src/persistent/tracking.py:172-179`): opens
the registry file for writing (truncating it), dumps the serialized `files`
mapping, and returns `True`; any exception is caught and `False` returned. -/
def TrackingDAO.save (dao : TrackingDAO) (fs : FS) : FS × Bool :=
  match openWrite fs dao.tracking_file with
  | .error _ => (fs, false)
  | .ok fs1 =>
    match asdictAll dao.files with
    | none => (fs1, false)
    | some doc =>
      (fs1.setNode dao.tracking_file (.file (encodeRegistryDoc doc) 0 true),
        true)

/-- Embeds `TrackingDAO.load` (`src/persistent/tracking.py:181-188`): reads
and parses the registry file into `files`; on any failure (missing path,
directory, unreadable file, malformed content) the exception is caught and
`files` is left unchanged. -/
def TrackingDAO.load (dao : TrackingDAO) (fs : FS) : TrackingDAO :=
  match fs.find dao.tracking_file with
  | some (.file content _ true) =>
    match decodeRegistryDoc content with
    | some kvs =>
      { dao with files := kvs.map (fun kv => (kv.1, RegObj.tracked kv.2)) }
    | none => dao
  | _ => dao

/-- Embeds `TrackingDAO.matches_backup` (`src/persistent/tracking.py:190-211`).
The comparison `self.files[filename].hash == calculate_file_hash(...)`
follows Python `==`: two `None`s compare equal, a string never equals
`None`. -/
def TrackingDAO.matches_backup (dao : TrackingDAO) (fs : FS)
    (filename : String) : Except PyErr Bool :=
  match List.lookup filename dao.files with
  | none =>
    .error (.trackingDAOException
      ("The file: " ++ filename ++ ", is not tracked.")
      .INVALID_TRACKING_FILE)
  | some .moduleRef => .error .attributeError
  | some (.tracked f) =>
    .ok (f.hash == calculate_file_hash fs (FilePath'.ofString f.path))

/-- Modelled from the spec: `TrackingDAO.check` is absent from
`src/persistent/tracking.py`; only its caller `do_check` in
`src/retrace/interface.py` exists. Spec §4.2: "returns every tracked file
whose live content hash no longer matches its stored `contentHash`; files
whose source path is currently missing or has become a directory are
skipped (excluded from consideration, not reported as changed)." -/
def TrackingDAO.check (dao : TrackingDAO) (fs : FS) : List TrackedFile :=
  dao.files.filterMap fun kv =>
    match kv.2 with
    | .moduleRef => none
    | .tracked f =>
      if !(fs.pathExists (FilePath'.ofString f.path)) ||
          fs.isDir (FilePath'.ofString f.path) then none
      else if calculate_file_hash fs (FilePath'.ofString f.path) == f.hash then
        none
      else some f

/-- Embeds `get_tracking_directory` (`src/persistent/tracking.py:214-233`).
When the metadata directory is absent it is created with `os.mkdir`, and
when the registry file path is absent it too is created with `os.mkdir`
(`src/persistent/tracking.py:226`) — producing a directory where the
registry file belongs. Exceptions from `os.mkdir` propagate. -/
def get_tracking_directory (fs : FS) (directory : FilePath') :
    FS × Except PyErr (Option TrackingDAO) :=
  if !(fs.pathExists directory) || fs.isFile directory then (fs, .ok none)
  else
    let tracking_directory := directory ++ [METADATA_PATH_EXTENSION]
    let tracking_file_directory := tracking_directory ++ [TRACKING_FILENAME]
    match
      (if !(fs.pathExists tracking_directory) then
        os_mkdir fs tracking_directory
      else .ok fs) with
    | .error e => (fs, .error e)
    | .ok fs1 =>
      match
        (if !(fs1.pathExists tracking_file_directory) then
          os_mkdir fs1 tracking_file_directory
        else .ok fs1) with
      | .error e => (fs1, .error e)
      | .ok fs2 =>
        (fs2,
          .ok (some
            { files := []
              directory := directory
              tracking_directory := tracking_directory
              tracking_file := tracking_file_directory }))

/-- Embeds `initialise_tracking` (`src/persistent/tracking.py:236-263`):
creates the metadata directory if absent and writes a fresh empty registry
file (`json.dump({})`), then re-checks the layout. The whole body is
wrapped in `try/except`, so any exception yields `None` while keeping the
filesystem effects performed so far. -/
def initialise_tracking (fs : FS) (directory : FilePath') :
    FS × Option TrackingDAO :=
  if !(fs.pathExists directory) || fs.isFile directory then (fs, none)
  else
    let metadata_directory := directory ++ [METADATA_PATH_EXTENSION]
    match
      (if !(fs.pathExists metadata_directory) then
        os_mkdir fs metadata_directory
      else .ok fs) with
    | .error _ => (fs, none)
    | .ok fs1 =>
      let metadata_file := metadata_directory ++ [TRACKING_FILENAME]
      match openWrite fs1 metadata_file with
      | .error _ => (fs1, none)
      | .ok fs2 =>
        let fs3 :=
          fs2.setNode metadata_file (.file (encodeRegistryDoc []) 0 true)
        if !(fs3.pathExists metadata_directory) ||
            !(fs3.pathExists metadata_file) || fs3.isDir metadata_file then
          (fs3, none)
        else
          (fs3,
            some
              { files := []
                directory := directory
                tracking_directory := metadata_directory
                tracking_file := metadata_file })

/-!
General lemmas about the filesystem and dictionary model.
-/

theorem FS.find_eq_dir_of_isDir {fs : FS} {p : FilePath'}
    (h : fs.isDir p = true) : fs.find p = some .dir := by
  unfold FS.isDir at h
  cases hf : fs.find p with
  | none => rw [hf] at h; simp at h
  | some n =>
    cases n with
    | dir => rfl
    | file c m r => rw [hf] at h; simp at h

theorem FS.pathExists_of_isDir {fs : FS} {p : FilePath'}
    (h : fs.isDir p = true) : fs.pathExists p = true := by
  unfold FS.pathExists
  rw [FS.find_eq_dir_of_isDir h]
  rfl

theorem FS.isFile_eq_false_of_isDir {fs : FS} {p : FilePath'}
    (h : fs.isDir p = true) : fs.isFile p = false := by
  unfold FS.isFile
  rw [FS.find_eq_dir_of_isDir h]

theorem FS.find_eq_none_of_not_pathExists {fs : FS} {p : FilePath'}
    (h : fs.pathExists p = false) : fs.find p = none := by
  unfold FS.pathExists at h
  cases hf : fs.find p with
  | none => rfl
  | some n => rw [hf] at h; simp at h

theorem append_singleton_ne (l : List String) (a : String) : l ++ [a] ≠ l := by
  intro h
  simpa using congrArg List.length h

theorem append_two_ne (l : List String) (a b : String) :
    (l ++ [a]) ++ [b] ≠ l := by
  intro h
  simpa using congrArg List.length h

theorem mem_of_lookup {κ α : Type} [BEq κ] [LawfulBEq κ]
    {l : List (κ × α)} {k : κ} {v : α}
    (h : List.lookup k l = some v) : (k, v) ∈ l := by
  induction l with
  | nil => simp [List.lookup] at h
  | cons hd tl ih =>
    obtain ⟨k0, v0⟩ := hd
    by_cases hk : (k == k0) = true
    · have hkk : k = k0 := by simpa using hk
      subst hkk
      simp [List.lookup] at h
      subst h
      exact List.mem_cons_self _ _
    · have hk' : (k == k0) = false := by simpa using hk
      simp only [List.lookup, hk'] at h
      exact List.mem_cons_of_mem _ (ih h)

theorem mem_dictSet {κ α : Type} [BEq κ] {l : List (κ × α)} {k : κ} {v : α}
    {x : κ × α} (h : x ∈ dictSet l k v) : x ∈ l ∨ x = (k, v) := by
  induction l with
  | nil =>
    simp [dictSet] at h
    right
    exact h
  | cons hd tl ih =>
    obtain ⟨k0, v0⟩ := hd
    by_cases hk : (k0 == k) = true
    · rw [dictSet, if_pos hk] at h
      rcases List.mem_cons.mp h with h1 | h2
      · right; exact h1
      · left; exact List.mem_cons_of_mem _ h2
    · rw [dictSet, if_neg hk] at h
      rcases List.mem_cons.mp h with h1 | h2
      · left; rw [h1]; exact List.mem_cons_self _ _
      · rcases ih h2 with h3 | h4
        · left; exact List.mem_cons_of_mem _ h3
        · right; exact h4

theorem copy2Write_ok {fs : FS} {target src : FilePath'} {c : List Nat}
    {m : Nat} {r : Bool} {fs1 : FS}
    (h : copy2Write fs target src c m r = .ok fs1) :
    fs1 = fs.setNode target (.file c m r) := by
  unfold copy2Write at h
  split_ifs at h <;> simp_all

/-- A successful `shutil.copy2` writes only at the destination (or at
`dst/src.name` when the destination is a directory): every other path is
untouched. -/
theorem shutil_copy2_ok_find {fs : FS} {src dst : FilePath'} {fs1 : FS}
    (h : shutil_copy2 fs src dst = .ok fs1) (q : FilePath')
    (h1 : q ≠ dst) (h2 : q ≠ dst ++ [FilePath'.name src]) :
    fs1.find q = fs.find q := by
  unfold shutil_copy2 at h
  cases hf : fs.find src with
  | none => rw [hf] at h; simp at h
  | some n =>
    rw [hf] at h
    cases n with
    | dir => simp at h
    | file c m r =>
      simp only at h
      have hfs1 := copy2Write_ok h
      subst hfs1
      by_cases hd : fs.isDir dst = true
      · rw [if_pos hd]
        exact FS.find_setNode_ne _ _ _ _ h2
      · rw [if_neg hd]
        exact FS.find_setNode_ne _ _ _ _ h1

/-!
Concrete fixtures: a watched directory `/d` with an initialised metadata
layout, a few tracked and untracked files, and registries built over them.
-/

def dP : FilePath' := ["", "d"]

def mdP : FilePath' := ["", "d", ".tracking"]

def regP : FilePath' := ["", "d", ".tracking", "tracking_files.json"]

def notesP : FilePath' := ["", "d", "notes.txt"]

def secretP : FilePath' := ["", "d", "secret.txt"]

def aP : FilePath' := ["", "d", "a.txt"]

def bP : FilePath' := ["", "d", "b.txt"]

def aBackupP : FilePath' := ["", "d", ".tracking", "a.txt"]

/-- Tracked entry for `/d/a.txt`; its stored hash is stale and a backup copy
exists at `/d/.tracking/a.txt`. -/
def tfA : TrackedFile :=
  { filename := "a.txt", path := "/d/a.txt", hash := some "stale", size := 1,
    last_modified := "ctime:3", backup_path := "/d/.tracking/a.txt" }

/-- Tracked entry for `/d/b.txt`; no backup copy exists yet. -/
def tfB : TrackedFile :=
  { filename := "b.txt", path := "/d/b.txt", hash := some "hb", size := 1,
    last_modified := "ctime:4", backup_path := "/d/.tracking/b.txt" }

/-- Tracked entry whose stored hash matches its live content `[10]`. -/
def tfCA : TrackedFile :=
  { filename := "ca.txt", path := "/d/ca.txt",
    hash := some (sha256_hexdigest [10]), size := 1,
    last_modified := "ctime:11", backup_path := "/d/.tracking" }

/-- Tracked entry whose stored hash is stale for its live content `[11]`. -/
def tfCB : TrackedFile :=
  { filename := "cb.txt", path := "/d/cb.txt", hash := some "oldhash",
    size := 1, last_modified := "ctime:12", backup_path := "/d/.tracking" }

/-- Tracked entry whose source path `/d/cc.txt` does not exist. -/
def tfCC : TrackedFile :=
  { filename := "cc.txt", path := "/d/cc.txt", hash := some "hc", size := 1,
    last_modified := "ctime:0", backup_path := "/d/.tracking" }

def fs1 : FS :=
  ⟨[(dP, .dir), (mdP, .dir),
    (regP, .file (encodeRegistryDoc []) 0 true),
    (notesP, .file [1, 2, 3] 5 true),
    (aP, .file [7] 3 true),
    (bP, .file [8] 4 true),
    (aBackupP, .file [9] 2 true),
    (secretP, .file [42] 6 false),
    (["", "d", "ca.txt"], .file [10] 11 true),
    (["", "d", "cb.txt"], .file [11] 12 true)]⟩

/-- A valid registry over `/d` with no tracked files yet. -/
def dao0 : TrackingDAO :=
  { files := [], directory := dP, tracking_directory := mdP,
    tracking_file := regP }

/-- A valid registry over `/d` tracking `a.txt` and `b.txt`. -/
def daoT : TrackingDAO :=
  { files := [("a.txt", .tracked tfA), ("b.txt", .tracked tfB)],
    directory := dP, tracking_directory := mdP, tracking_file := regP }

/-- A valid registry over `/d` with the hash-matching / hash-stale /
source-missing triple of §8 of the spec. -/
def daoCheck : TrackingDAO :=
  { files := [("A", .tracked tfCA), ("B", .tracked tfCB),
      ("C", .tracked tfCC)],
    directory := dP, tracking_directory := mdP, tracking_file := regP }

/-- The `TrackedFile` that `try_create_tracked_file` builds for
`/d/notes.txt` in `fs1`. -/
def tfNotes : TrackedFile :=
  { filename := "notes.txt", path := "/d/notes.txt",
    hash := some (sha256_hexdigest [1, 2, 3]), size := 3,
    last_modified := time_ctime 5, backup_path := "/d/.tracking" }

/-- Claim C1. The claim says a successful `track` stores under the filename
the `TrackedFile` built from the path, with the content hash, and that
`matches_backup` then returns true. The code instead stores and returns the
imported `tracked_file` module object (`src/persistent/tracking.py:169`):
the stored entry is not the created `TrackedFile`, and `matches_backup`
immediately afterwards raises `AttributeError` instead of returning true. -/
theorem C1_track_stores_module_not_tracked_file :
    dao0.track fs1 "notes.txt" =
      ({ dao0 with files := [("notes.txt", RegObj.moduleRef)] },
        .ok RegObj.moduleRef) ∧
    try_create_tracked_file fs1 notesP mdP = some tfNotes ∧
    RegObj.moduleRef ≠ RegObj.tracked tfNotes ∧
    TrackingDAO.matches_backup
      { dao0 with files := [("notes.txt", RegObj.moduleRef)] } fs1
      "notes.txt" = .error .attributeError :=
  ⟨rfl, rfl, by decide, rfl⟩

/-- Claim C2. For the existing regular file `/d/notes.txt` and backup
directory `/d/.tracking`, `try_create_tracked_file` sets `backup_path` to
the backup directory itself (`src/persistent/tracked_file.py:88`), not to
`backupDirectory/filename` as the claim states. -/
theorem C2_backup_path_is_directory_not_joined :
    (try_create_tracked_file fs1 notesP mdP).map TrackedFile.backup_path =
      some (FilePath'.as_posix mdP) ∧
    FilePath'.as_posix mdP ≠
      FilePath'.as_posix (mdP ++ [FilePath'.name notesP]) :=
  ⟨rfl, by decide⟩

/-- Claim C4, counterexample half. `/d/secret.txt` exists as a regular file
but cannot be read. `calculate_file_hash` catches the `PermissionError`,
prints, and returns `None` — no `IOError` reaches the caller; and
`try_create_tracked_file` then silently succeeds, building a `TrackedFile`
whose `hash` field is `None`, rather than reporting the read failure. -/
theorem C4_hash_failure_swallowed :
    calculate_file_hash fs1 secretP = none ∧
    try_create_tracked_file fs1 secretP mdP =
      some
        { filename := "secret.txt", path := "/d/secret.txt", hash := none,
          size := 1, last_modified := time_ctime 6,
          backup_path := "/d/.tracking" } :=
  ⟨rfl, rfl⟩

/-- Claim C4, amended. For every readable regular file,
`calculate_file_hash` returns the hex digest of the hash of the file's
bytes fed through the 4 KiB-chunk loop (which absorbs exactly the file's
byte sequence); for every path that cannot be opened or read — missing,
a directory, or without read permission — the exception is caught, logged,
and `None` is returned to the caller instead of a raised `IOError`. -/
theorem C4_hash_amended (fs : FS) (p : FilePath') :
    (∀ content m, fs.find p = some (.file content m true) →
      calculate_file_hash fs p = some (sha256_hexdigest content)) ∧
    ((fs.find p = none ∨ fs.find p = some .dir ∨
        ∃ content m, fs.find p = some (.file content m false)) →
      calculate_file_hash fs p = none) := by
  constructor
  · intro content m h
    simp only [calculate_file_hash, h, hashUpdateLoop_eq, List.nil_append]
  · rintro (h | h | ⟨c, m, h⟩) <;> simp only [calculate_file_hash, h]

theorem C4_hash_amended_witness :
    calculate_file_hash fs1 notesP = some (sha256_hexdigest [1, 2, 3]) ∧
    calculate_file_hash fs1 secretP = none :=
  ⟨(C4_hash_amended fs1 notesP).1 [1, 2, 3] 5 rfl,
    (C4_hash_amended fs1 secretP).2 (Or.inr (Or.inr ⟨[42], 6, rfl⟩))⟩

/-- Claim C5. Backing up the untracked name `ghost.txt` on a valid registry
raises `TrackingDAOException` before any filesystem mutation, but with
error code `INVALID_TRACKING_DIRECTORY` (`src/persistent/tracking.py:65`) —
the same code the invalid-registry (invalid-state) failure carries — not a
distinct untracked-file code, which the enum does not even define. -/
theorem C5_untracked_backup_wrong_error_code :
    daoT.backup fs1 ["ghost.txt"] =
      (fs1, daoT,
        .error (.trackingDAOException
          "Attempted to backup the untracked file: ghost.txt."
          .INVALID_TRACKING_DIRECTORY)) ∧
    ({ daoT with directory := ["", "gone"] }).backup fs1 ["a.txt"] =
      (fs1, { daoT with directory := ["", "gone"] },
        .error (.trackingDAOException
          "Attempted to backup files from an untracked (invalid) directory."
          .INVALID_TRACKING_DIRECTORY)) :=
  ⟨rfl, rfl⟩

/-- Claim C6. Restoring the untracked name `ghost.txt` on a valid registry
does not fail with an `UntrackedFile` failure: evaluating
`TrackingDAOErrorCode.UNTRACKED_FILE` raises `AttributeError` because the
enum in `src/retrace/exceptions.py` has no such member. The per-file parts
of the claim do hold: `b.txt` (tracked, no backup) is silently skipped and
`a.txt` (tracked, backup present) is copied from its backup over the source
and returned. -/
theorem C6_restore_untracked_raises_attribute_error :
    daoT.restore fs1 ["ghost.txt"] = (fs1, .error .attributeError) ∧
    daoT.restore fs1 ["b.txt", "a.txt"] =
      (fs1.setNode aP (.file [9] 2 true), .ok [tfA]) ∧
    (fs1.setNode aP (.file [9] 2 true)).find aP = fs1.find aBackupP :=
  ⟨rfl, rfl, rfl⟩

/-- Claim C9. If `filename` is already a key of the registry's `files`
mapping, `track` returns the existing entry and leaves the registry
unchanged (`src/persistent/tracking.py:153-154`), and its result does not
depend on the filesystem at all — in particular no re-hashing happens and
the stored hash is the same both times. -/
theorem C9_track_idempotent (dao : TrackingDAO) (fs : FS) (filename : String)
    (v : RegObj) (h : List.lookup filename dao.files = some v) :
    dao.track fs filename = (dao, .ok v) ∧
    ∀ fs2 : FS, dao.track fs2 filename = dao.track fs filename := by
  constructor
  · unfold TrackingDAO.track
    rw [h]
  · intro fs2
    unfold TrackingDAO.track
    rw [h]

/-- An unrelated filesystem used to show `track` on an already-tracked name
ignores the filesystem entirely. -/
def fs2w : FS := ⟨[(dP, .dir)]⟩

theorem C9_track_idempotent_witness :
    daoT.track fs1 "a.txt" = (daoT, .ok (RegObj.tracked tfA)) ∧
    daoT.track fs2w "a.txt" = daoT.track fs1 "a.txt" :=
  ⟨(C9_track_idempotent daoT fs1 "a.txt" (RegObj.tracked tfA) rfl).1,
    (C9_track_idempotent daoT fs1 "a.txt" (RegObj.tracked tfA) rfl).2 fs2w⟩

/-- The filesystem `get_tracking_directory` leaves behind when run on a
directory with no pre-existing metadata: the metadata directory and — via
the second `os.mkdir` — a directory at the registry-file path. -/
def locateFS (fs : FS) (directory : FilePath') : FS :=
  (fs.setNode (directory ++ [METADATA_PATH_EXTENSION]) .dir).setNode
    ((directory ++ [METADATA_PATH_EXTENSION]) ++ [TRACKING_FILENAME]) .dir

/-- The registry object `get_tracking_directory` returns for `directory`. -/
def locateDAO (directory : FilePath') : TrackingDAO :=
  { files := [], directory := directory,
    tracking_directory := directory ++ [METADATA_PATH_EXTENSION],
    tracking_file := (directory ++ [METADATA_PATH_EXTENSION]) ++
      [TRACKING_FILENAME] }

/-- Claim C10, amended. On an existing directory with no pre-existing
metadata, `get_tracking_directory` creates the metadata directory and then
creates the registry-file path itself with `os.mkdir`
(`src/persistent/tracking.py:226`), so the returned registry's `is_valid`
is false and every `backup`/`restore` on it is rejected with the
invalid-state failure. Contrary to the claim's final clause, running
`initialise_tracking` on the directory does not end this state: it fails
(returns `None`, because opening the registry path for writing raises
`IsADirectoryError`) and leaves the filesystem, and hence the invalid
state, unchanged. -/
theorem C10_locate_creates_invalid_registry (fs : FS) (directory : FilePath')
    (h1 : fs.isDir directory = true)
    (h2 : fs.pathExists (directory ++ [METADATA_PATH_EXTENSION]) = false)
    (h3 : fs.pathExists
      ((directory ++ [METADATA_PATH_EXTENSION]) ++ [TRACKING_FILENAME]) =
      false) :
    get_tracking_directory fs directory =
      (locateFS fs directory, .ok (some (locateDAO directory))) ∧
    (locateFS fs directory).isDir (locateDAO directory).tracking_file =
      true ∧
    (locateDAO directory).is_valid (locateFS fs directory) = false ∧
    (∀ fns, (locateDAO directory).backup (locateFS fs directory) fns =
      (locateFS fs directory, locateDAO directory,
        .error (.trackingDAOException
          "Attempted to backup files from an untracked (invalid) directory."
          .INVALID_TRACKING_DIRECTORY))) ∧
    (∀ fns, (locateDAO directory).restore (locateFS fs directory) fns =
      (locateFS fs directory,
        .error (.trackingDAOException
          "Attempted to restore file(s) from an invalid tracking directory."
          .INVALID_TRACKING_DIRECTORY))) ∧
    initialise_tracking (locateFS fs directory) directory =
      (locateFS fs directory, none) := by
  have he : fs.pathExists directory = true := FS.pathExists_of_isDir h1
  have hfl : fs.isFile directory = false := FS.isFile_eq_false_of_isDir h1
  have hpar1 :
      FilePath'.parent (directory ++ [METADATA_PATH_EXTENSION]) = directory := by
    unfold FilePath'.parent
    rw [List.dropLast_concat]
  have hpar2 :
      FilePath'.parent
        ((directory ++ [METADATA_PATH_EXTENSION]) ++ [TRACKING_FILENAME]) =
        directory ++ [METADATA_PATH_EXTENSION] := by
    unfold FilePath'.parent
    rw [List.dropLast_concat]
  have hmk1 : os_mkdir fs (directory ++ [METADATA_PATH_EXTENSION]) =
      .ok (fs.setNode (directory ++ [METADATA_PATH_EXTENSION]) .dir) := by
    unfold os_mkdir
    rw [h2, hpar1, h1]
    rfl
  have hfind1 :
      (fs.setNode (directory ++ [METADATA_PATH_EXTENSION]) .dir).find
        ((directory ++ [METADATA_PATH_EXTENSION]) ++ [TRACKING_FILENAME]) =
        none := by
    rw [FS.find_setNode_ne _ _ _ _ (append_singleton_ne _ _)]
    exact FS.find_eq_none_of_not_pathExists h3
  have hpex1 :
      (fs.setNode (directory ++ [METADATA_PATH_EXTENSION]) .dir).pathExists
        ((directory ++ [METADATA_PATH_EXTENSION]) ++ [TRACKING_FILENAME]) =
        false := by
    unfold FS.pathExists
    rw [hfind1]
    rfl
  have hisdir1 :
      (fs.setNode (directory ++ [METADATA_PATH_EXTENSION]) .dir).isDir
        (directory ++ [METADATA_PATH_EXTENSION]) = true := by
    unfold FS.isDir
    rw [FS.find_setNode_self]
  have hmk2 :
      os_mkdir (fs.setNode (directory ++ [METADATA_PATH_EXTENSION]) .dir)
        ((directory ++ [METADATA_PATH_EXTENSION]) ++ [TRACKING_FILENAME]) =
        .ok (locateFS fs directory) := by
    unfold os_mkdir
    rw [hpex1, hpar2, hisdir1]
    rfl
  have hmain : get_tracking_directory fs directory =
      (locateFS fs directory, .ok (some (locateDAO directory))) := by
    simp only [get_tracking_directory, he, hfl, Bool.not_true, Bool.or_false,
      Bool.false_eq_true, if_false, h2, Bool.not_false, if_true, hmk1, hpex1,
      hmk2]
    rfl
  have hfindY :
      (locateFS fs directory).find
        ((directory ++ [METADATA_PATH_EXTENSION]) ++ [TRACKING_FILENAME]) =
        some .dir := FS.find_setNode_self _ _ _
  have hisdirY :
      (locateFS fs directory).isDir
        ((directory ++ [METADATA_PATH_EXTENSION]) ++ [TRACKING_FILENAME]) =
        true := by
    unfold FS.isDir
    rw [hfindY]
  have hfileY :
      (locateFS fs directory).isFile
        ((directory ++ [METADATA_PATH_EXTENSION]) ++ [TRACKING_FILENAME]) =
        false := by
    unfold FS.isFile
    rw [hfindY]
  have hvalid : (locateDAO directory).is_valid (locateFS fs directory) =
      false := by
    simp only [TrackingDAO.is_valid, locateDAO]
    rw [hfileY, Bool.and_false]
  have hfindYdir : (locateFS fs directory).find directory = some .dir := by
    unfold locateFS
    rw [FS.find_setNode_ne _ _ _ _ (Ne.symm (append_two_ne _ _ _)),
      FS.find_setNode_ne _ _ _ _ (Ne.symm (append_singleton_ne _ _))]
    exact FS.find_eq_dir_of_isDir h1
  have hpexYdir : (locateFS fs directory).pathExists directory = true := by
    unfold FS.pathExists
    rw [hfindYdir]
    rfl
  have hfileYdir : (locateFS fs directory).isFile directory = false := by
    unfold FS.isFile
    rw [hfindYdir]
  have hfindYmd :
      (locateFS fs directory).find (directory ++ [METADATA_PATH_EXTENSION]) =
        some .dir := by
    unfold locateFS
    rw [FS.find_setNode_ne _ _ _ _ (Ne.symm (append_singleton_ne _ _))]
    exact FS.find_setNode_self _ _ _
  have hpexYmd :
      (locateFS fs directory).pathExists
        (directory ++ [METADATA_PATH_EXTENSION]) = true := by
    unfold FS.pathExists
    rw [hfindYmd]
    rfl
  have hopen :
      openWrite (locateFS fs directory)
        ((directory ++ [METADATA_PATH_EXTENSION]) ++ [TRACKING_FILENAME]) =
        .error .isADirectoryError := by
    unfold openWrite
    rw [hfindY]
  have hinit : initialise_tracking (locateFS fs directory) directory =
      (locateFS fs directory, none) := by
    simp only [initialise_tracking, hpexYdir, hfileYdir, Bool.not_true,
      Bool.or_false, Bool.false_eq_true, if_false, hpexYmd, Bool.not_false,
      hopen]
  refine ⟨hmain, hisdirY, hvalid, ?_, ?_, hinit⟩
  · intro fns
    unfold TrackingDAO.backup
    rw [hvalid]
    rfl
  · intro fns
    unfold TrackingDAO.restore
    rw [hvalid]
    rfl

def eP : FilePath' := ["", "e"]

def fsE : FS := ⟨[(eP, .dir)]⟩

/-- Claim C10, counterexample to the claim's final clause. After
`get_tracking_directory` on the fresh directory `/e`, the registry is
invalid and `backup` is rejected — but running `initialise_tracking` does
not repair it: it returns `None` and leaves the filesystem unchanged, and
the registry stays invalid. -/
theorem C10_initialise_does_not_repair :
    get_tracking_directory fsE eP = (locateFS fsE eP, .ok (some (locateDAO eP))) ∧
    initialise_tracking (locateFS fsE eP) eP = (locateFS fsE eP, none) ∧
    (locateDAO eP).is_valid (locateFS fsE eP) = false ∧
    (locateDAO eP).backup (locateFS fsE eP) ["x.txt"] =
      (locateFS fsE eP, locateDAO eP,
        .error (.trackingDAOException
          "Attempted to backup files from an untracked (invalid) directory."
          .INVALID_TRACKING_DIRECTORY)) :=
  ⟨rfl, rfl, rfl, rfl⟩

theorem C10_locate_witness :
    fsE.isDir eP = true ∧
    get_tracking_directory fsE eP =
      (locateFS fsE eP, .ok (some (locateDAO eP))) ∧
    (locateDAO eP).is_valid (locateFS fsE eP) = false ∧
    initialise_tracking (locateFS fsE eP) eP = (locateFS fsE eP, none) :=
  ⟨rfl, (C10_locate_creates_invalid_registry fsE eP rfl rfl rfl).1,
    (C10_locate_creates_invalid_registry fsE eP rfl rfl rfl).2.2.1,
    (C10_locate_creates_invalid_registry fsE eP rfl rfl rfl).2.2.2.2.2⟩

theorem asdictAll_inv :
    ∀ (files : List (String × RegObj)) (doc : List (String × TrackedFile)),
      asdictAll files = some doc →
      doc.map (fun kv => (kv.1, RegObj.tracked kv.2)) = files := by
  intro files
  induction files with
  | nil =>
    intro doc h
    simp [asdictAll] at h
    subst h
    rfl
  | cons hd tl ih =>
    obtain ⟨k, v⟩ := hd
    cases v with
    | moduleRef =>
      intro doc h
      simp [asdictAll] at h
    | tracked t =>
      intro doc h
      simp only [asdictAll] at h
      cases hr : asdictAll tl with
      | none => rw [hr] at h; simp at h
      | some r =>
        rw [hr] at h
        simp at h
        subst h
        simp [ih r hr]

/-- Claim C8. If `save` succeeds, `load` on the resulting filesystem
reconstructs the registry exactly: the parsed document reproduces the
`files` mapping (same keys, same field values) held in memory before the
save, and every other field of the registry is untouched. -/
theorem C8_save_load_roundtrip (dao : TrackingDAO) (fs fs' : FS)
    (h : dao.save fs = (fs', true)) : dao.load fs' = dao := by
  unfold TrackingDAO.save at h
  cases how : openWrite fs dao.tracking_file with
  | error e => rw [how] at h; simp at h
  | ok fs1 =>
    rw [how] at h
    cases hd : asdictAll dao.files with
    | none => rw [hd] at h; simp at h
    | some doc =>
      rw [hd] at h
      rw [Prod.mk.injEq] at h
      obtain ⟨hfs, -⟩ := h
      subst hfs
      unfold TrackingDAO.load
      rw [FS.find_setNode_self]
      simp only [decodeRegistryDoc_enc]
      rw [asdictAll_inv dao.files doc hd]

theorem C8_save_load_roundtrip_witness :
    (daoT.save fs1).2 = true ∧ daoT.load (daoT.save fs1).1 = daoT :=
  ⟨rfl, C8_save_load_roundtrip daoT fs1 (daoT.save fs1).1 rfl⟩

/-- The updated entry and filesystem produced by backing up `a.txt`: the
backup slot now holds the source bytes, the in-memory hash is refreshed. -/
def tfA' : TrackedFile :=
  { tfA with hash := some (sha256_hexdigest [7]), last_modified := time_ctime 3 }

def fs1a : FS := fs1.setNode aBackupP (.file [7] 3 true)

def daoTa : TrackingDAO :=
  { daoT with files := [("a.txt", .tracked tfA'), ("b.txt", .tracked tfB)] }

/-- Claim C3, counterexample to the persistence clause. A successful
`backup("a.txt")` copies the file and refreshes the in-memory entry, but
the on-disk registry file at `tracking_files.json` still holds the document
from before the call: the registry is not persisted (there is no `save`
call in `TrackingDAO.backup`), so memory and disk now disagree. -/
theorem C3_backup_does_not_persist :
    daoT.backup fs1 ["a.txt"] = (fs1a, daoTa, .ok [tfA']) ∧
    fs1a.find regP = fs1.find regP ∧
    daoTa.files ≠ daoT.files :=
  ⟨rfl, rfl, by decide⟩

/-- No tracked entry's backup copy can land on the registry file: neither
its `backup_path` nor `backup_path/source-name` (the target `shutil.copy2`
uses when `backup_path` is a directory) is the registry-file path. -/
def SafeBackupPaths (files : List (String × RegObj)) (tf0 : FilePath') : Bool :=
  files.all fun kv =>
    match kv.2 with
    | .moduleRef => true
    | .tracked f =>
      (FilePath'.ofString f.backup_path != tf0) &&
        (FilePath'.ofString f.backup_path ++
          [FilePath'.name (FilePath'.ofString f.path)] != tf0)

theorem safeBackupPaths_lookup {files : List (String × RegObj)}
    {tf0 : FilePath'} {k : String} {f : TrackedFile}
    (hsafe : SafeBackupPaths files tf0 = true)
    (h : List.lookup k files = some (RegObj.tracked f)) :
    FilePath'.ofString f.backup_path ≠ tf0 ∧
      FilePath'.ofString f.backup_path ++
        [FilePath'.name (FilePath'.ofString f.path)] ≠ tf0 := by
  have hmem := mem_of_lookup h
  have := List.all_eq_true.mp hsafe _ hmem
  simp only [bne_iff_ne, Bool.and_eq_true] at this
  exact this

theorem backupLoop_no_save (tf0 : FilePath') :
    ∀ (fns : List String) (fs : FS) (files : List (String × RegObj))
      (acc : List TrackedFile),
      SafeBackupPaths files tf0 = true →
      (backupLoop fs files acc fns).1.find tf0 = fs.find tf0 ∧
      (∀ res, (backupLoop fs files acc fns).2.2 = .ok res →
        res.length = acc.length + fns.length) := by
  intro fns
  induction fns with
  | nil =>
    intro fs files acc hsafe
    refine ⟨rfl, ?_⟩
    intro res h
    have : acc.reverse = res := Except.ok.inj h
    subst this
    simp
  | cons filename rest ih =>
    intro fs files acc hsafe
    cases hl : List.lookup filename files with
    | none =>
      simp only [backupLoop, hl]
      exact ⟨by trivial, fun res h => by simp at h⟩
    | some v =>
      cases v with
      | moduleRef =>
        simp only [backupLoop, hl]
        exact ⟨by trivial, fun res h => by simp at h⟩
      | tracked f =>
        simp only [backupLoop, hl]
        by_cases hcond :
            (!(fs.pathExists (FilePath'.ofString f.path)) ||
              fs.isDir (FilePath'.ofString f.path) ||
              (!(fs.pathExists (FilePath'.ofString f.backup_path)) &&
                fs.isDir (FilePath'.ofString f.backup_path))) = true
        · rw [if_pos hcond]
          exact ⟨by trivial, fun res h => by simp at h⟩
        · rw [if_neg hcond]
          cases hcp : shutil_copy2 fs (FilePath'.ofString f.path)
              (FilePath'.ofString f.backup_path) with
          | error e =>
            exact ⟨by trivial, fun res h => by simp at h⟩
          | ok fsx =>
            obtain ⟨hne1, hne2⟩ := safeBackupPaths_lookup hsafe hl
            have hfind : fsx.find tf0 = fs.find tf0 :=
              shutil_copy2_ok_find hcp tf0 (Ne.symm hne1) (Ne.symm hne2)
            have hsafe' :
                SafeBackupPaths
                  (dictSet files filename
                    (.tracked
                      { f with
                          hash := calculate_file_hash fsx
                            (FilePath'.ofString f.path)
                          last_modified :=
                            time_ctime
                              (fsx.statMtime (FilePath'.ofString f.path)) }))
                  tf0 = true := by
              rw [SafeBackupPaths, List.all_eq_true]
              intro x hx
              rcases mem_dictSet hx with hmemx | hxeq
              · exact List.all_eq_true.mp hsafe _ hmemx
              · subst hxeq
                have hmemf := mem_of_lookup hl
                exact List.all_eq_true.mp hsafe _ hmemf
            obtain ⟨ih1, ih2⟩ := ih fsx _ _ hsafe'
            refine ⟨?_, ?_⟩
            · rw [ih1, hfind]
            · intro res h
              have := ih2 res h
              rw [this]
              simp only [List.length_cons]
              omega

/-- Claim C3, amended. A successful multi-file `backup` call on a valid
registry returns the list of successfully updated entries — one per
requested filename — but does NOT persist the registry to disk: as long as
no tracked file's backup target aliases the registry file, the registry
file's on-disk content after the call is exactly what it was before.
Persistence requires a separate `save` call, which neither
`TrackingDAO.backup` nor its CLI caller issues. -/
theorem C3_backup_returns_updates_without_persisting
    (dao : TrackingDAO) (fs : FS) (filenames : List String)
    (fs' : FS) (dao' : TrackingDAO) (res : List TrackedFile)
    (hsafe : SafeBackupPaths dao.files dao.tracking_file = true)
    (h : dao.backup fs filenames = (fs', dao', .ok res)) :
    fs'.find dao.tracking_file = fs.find dao.tracking_file ∧
    res.length = filenames.length := by
  unfold TrackingDAO.backup at h
  by_cases hv : dao.is_valid fs = true
  · rw [hv] at h
    simp only [Bool.not_true, Bool.false_eq_true, if_false] at h
    rw [Prod.mk.injEq, Prod.mk.injEq] at h
    obtain ⟨hfs, -, hres⟩ := h
    obtain ⟨l1, l2⟩ :=
      backupLoop_no_save dao.tracking_file filenames fs dao.files [] hsafe
    subst hfs
    refine ⟨l1, ?_⟩
    have := l2 res hres
    simpa using this
  · have hv' : dao.is_valid fs = false := by
      cases hb : dao.is_valid fs
      · rfl
      · exact absurd hb hv
    rw [hv'] at h
    simp at h

/-- Claim C7. `check()` (modelled from the spec, being absent from the
source despite its CLI caller) returns exactly the tracked files whose live
content hash differs from their stored hash: membership in the result is
equivalent to being a tracked entry whose source path exists, is not a
directory, and hashes differently from the stored value. On the registry
tracking `{A: hash matches, B: hash stale, C: source missing}` it returns
exactly `[B]`. -/
theorem C7_check_returns_exactly_stale_files :
    (∀ (dao : TrackingDAO) (fs : FS) (t : TrackedFile),
      t ∈ dao.check fs ↔
        ∃ k, ((k, RegObj.tracked t) ∈ dao.files ∧
          fs.pathExists (FilePath'.ofString t.path) = true ∧
          fs.isDir (FilePath'.ofString t.path) = false ∧
          calculate_file_hash fs (FilePath'.ofString t.path) ≠ t.hash)) ∧
    daoCheck.check fs1 = [tfCB] := by
  constructor
  · intro dao fs t
    unfold TrackingDAO.check
    rw [List.mem_filterMap]
    constructor
    · rintro ⟨⟨k, v⟩, hmem, hf⟩
      cases v with
      | moduleRef => simp at hf
      | tracked f =>
        simp only at hf
        by_cases hc1 :
            (!(fs.pathExists (FilePath'.ofString f.path)) ||
              fs.isDir (FilePath'.ofString f.path)) = true
        · rw [if_pos hc1] at hf
          simp at hf
        · rw [if_neg hc1] at hf
          by_cases hc2 :
              (calculate_file_hash fs (FilePath'.ofString f.path) == f.hash) =
                true
          · rw [if_pos hc2] at hf
            simp at hf
          · rw [if_neg hc2] at hf
            have hft : f = t := Option.some.inj hf
            subst hft
            simp only [Bool.or_eq_true, Bool.not_eq_true', not_or] at hc1
            obtain ⟨hex, hdir⟩ := hc1
            refine ⟨k, hmem, ?_, ?_, ?_⟩
            · cases hb : fs.pathExists (FilePath'.ofString f.path)
              · exact absurd hb hex
              · rfl
            · cases hb : fs.isDir (FilePath'.ofString f.path)
              · rfl
              · exact absurd hb hdir
            · intro heq
              exact hc2 (by simp [heq])
    · rintro ⟨k, hmem, h1, h2, h3⟩
      refine ⟨(k, RegObj.tracked t), hmem, ?_⟩
      simp only [h1, h2, Bool.not_true, Bool.or_false, Bool.false_eq_true,
        if_false]
      rw [if_neg]
      intro hb
      exact h3 ((beq_iff_eq).mp hb)
  · rfl

theorem C3_backup_amended_witness :
    SafeBackupPaths daoT.files daoT.tracking_file = true ∧
    (fs1a.find daoT.tracking_file = fs1.find daoT.tracking_file ∧
      ([tfA'] : List TrackedFile).length = (["a.txt"] : List String).length) :=
  ⟨rfl,
    C3_backup_returns_updates_without_persisting daoT fs1 ["a.txt"] fs1a daoTa
      [tfA'] rfl rfl⟩

end Retrace
